import Mathlib

/-!
Verification of the PLG tiered verdict engine (`plg_core.py`).

The shallow embedding below mirrors the module `plg_core.py`: threshold
constants, the `CompanyData` and `VerdictResult` data classes, the
normalization helpers, confidence scoring, staleness checking, research
recommendations, the tier router, the four tier scorers and the
`compute_verdict` orchestrator.

Modelling conventions:
- Python floats are modelled as exact rationals (`ℚ`); `round(x, 4)` is
  modelled by `round4`.
- `Optional[float]` is `Option ℚ`; `None` is `none`.
- `int(x)` (truncation toward zero) is `truncInt`.
- `datetime.now()` is threaded in as an explicit day-number parameter
  `now : Int`; `datetime.strptime(s, "%Y-%m-%d")` is modelled by
  `parse_date`, which maps a well-formed Gregorian date string to its
  civil day number, so `(now - updated).days` is `now - parse_date s`.
- The string rendering of numbers inside rationale strings abstracts
  Python float formatting: `fmt0` models `{:.0f}`, `fmt1` models `{:.1f}`,
  `qstr` models the plain `str()` of a number.
-/

namespace PLG

/-- Truncation toward zero, the behaviour of Python `int()` on a float. -/
def truncInt (q : ℚ) : Int := if q < 0 then ⌈q⌉ else ⌊q⌋

/-- Model of Python `round(x, 4)` on exact rationals. -/
def round4 (q : ℚ) : ℚ := (round (q * 10000) : ℚ) / 10000

/-- Model of the `{:.0f}` float format. -/
def fmt0 (q : ℚ) : String := toString (round q)

/-- Model of the `{:.1f}` float format (adequate for the nonnegative totals it is applied to). -/
def fmt1 (q : ℚ) : String :=
  let n := round (q * 10)
  toString (n / 10) ++ "." ++ toString (n % 10)

/-- Model of Python `str()` of a number. -/
def qstr (q : ℚ) : String := toString q

/-- Model of `"; ".join(l)`. -/
def joinSemi (l : List String) : String := String.intercalate "; " l

-- ============================================================
-- THRESHOLD CONSTANTS (plg_core.py lines 32-110)
-- ============================================================

def NDR_ENTRY_THRESHOLD : ℚ := 110
def NDR_ELITE_THRESHOLD : ℚ := 120
def GROWTH_ENTRY_THRESHOLD : ℚ := 25
def GROWTH_ELITE_THRESHOLD : ℚ := 30
def GROWTH_PARTIAL_THRESHOLD : ℚ := 20

def GR_STRONG : ℚ := 97
def GR_HEALTHY : ℚ := 93
def GR_ACCEPTABLE : ℚ := 90

def DBNE_STRONG : ℚ := 120
def DBNE_HEALTHY : ℚ := 110
def DBNE_ACCEPTABLE : ℚ := 100

def LARGE_CUST_NDR_STRONG : ℚ := 125
def LARGE_CUST_NDR_HEALTHY : ℚ := 115
def LARGE_CUST_NDR_ACCEPTABLE : ℚ := 105

def IMPLIED_EXP_STRONG : ℚ := 15
def IMPLIED_EXP_HEALTHY : ℚ := 5

def RPO_ACCELERATING_DELTA : ℚ := 10

def CONSUMER_ARPU_GROWTH_BUY : ℚ := 20
def CONSUMER_USER_GROWTH_BUY : ℚ := 15
def CONSUMER_REVENUE_GROWTH_WATCH : ℚ := 30

def MARKETPLACE_GMV_GROWTH_BUY : ℚ := 25

def TRANSACTION_MARGIN_COMPRESSION_DELTA : ℚ := 10

def CONFIDENCE_HIGH : ℚ := 0.70
def CONFIDENCE_MEDIUM : ℚ := 0.45
def CONFIDENCE_LOW : ℚ := 0.25

def STALENESS_FINANCIAL : Int := 100
def STALENESS_COMPETITIVE : Int := 180

def ENTRY_STRONG_BUY : ℚ := 5
def ENTRY_BUY : ℚ := 4
def ENTRY_WATCH : ℚ := 3
def EXIT_SELL : ℚ := 2
def EXIT_WATCH : ℚ := 1

/-- The `SIGNAL_WEIGHTS` dict of `plg_core.py` as a lookup function. -/
def SIGNAL_WEIGHTS (k : String) : ℚ :=
  if k = "ndr_tier_1" then 0.25
  else if k = "ndr_tier_2" then 0.15
  else if k = "ndr_tier_3" then 0.08
  else if k = "revenue_growth_current" then 0.15
  else if k = "revenue_growth_trend" then 0.10
  else if k = "arr_disclosed" then 0.05
  else if k = "big_tech_threat_assessed" then 0.10
  else if k = "category_stage_assessed" then 0.10
  else if k = "large_customer_count" then 0.05
  else if k = "customer_growth_rate" then 0.05
  else 0

-- ============================================================
-- DATA CLASSES (plg_core.py lines 117-191)
-- ============================================================

/-- The `CompanyData` dataclass: all data needed to compute a verdict for one company. -/
structure CompanyData where
  ticker : String
  name : String
  category : String
  business_model : String
  market_cap : Option ℚ := none
  revenue_ttm : Option ℚ := none
  revenue_growth_yoy : Option ℚ := none
  gross_margin : Option ℚ := none
  operating_margin : Option ℚ := none
  current_price : Option ℚ := none
  ndr : Option ℚ := none
  ndr_tier : Int := 4
  gross_retention : Option ℚ := none
  dbne : Option ℚ := none
  large_customer_ndr : Option ℚ := none
  implied_expansion : Option ℚ := none
  rpo_growth_yoy : Option ℚ := none
  arpu_growth_yoy : Option ℚ := none
  active_user_growth_yoy : Option ℚ := none
  gmv_growth_yoy : Option ℚ := none
  take_rate : Option ℚ := none
  take_rate_trend : Option String := none
  tpv_growth_yoy : Option ℚ := none
  gross_profit_growth_yoy : Option ℚ := none
  arr_millions : Option ℚ := none
  customers_100k_plus : Option Int := none
  customer_growth_yoy : Option ℚ := none
  big_tech_threat : String := "unknown"
  category_stage : String := "unknown"
  switching_cost : String := "unknown"
  big_tech_announced : Bool := false
  revenue_decel_3q : Bool := false
  cik : String := ""
  data_as_of : String := ""
  data_updated : Option String := none
  notes : String := ""
  deriving DecidableEq

/-- The `VerdictResult` dataclass: output of verdict computation. The
`entry_signals_met` and `exit_signals_triggered` fields are annotated `int`
in the source, but Python does not enforce the annotation and one return
branch (`plg_core.py` line 726) stores the raw fractional exit total, so the
fields are modelled as rationals and each branch stores exactly what the
source stores there. -/
structure VerdictResult where
  ticker : String
  verdict : String
  confidence : String
  confidence_score : ℚ
  rationale : String
  data_tier : Int
  missing_signals : List String
  entry_signals_met : ℚ
  exit_signals_triggered : ℚ
  staleness_warning : Bool := false
  stale_fields : List String := []
  research_recommendations : List String := []
  last_updated : Option Int := none
  deriving DecidableEq

-- ============================================================
-- NORMALIZATION HELPERS (plg_core.py lines 198-224)
-- ============================================================

/-- Core of `_normalize_growth` on a present value: a value strictly between
-1 and 1, but not exactly 0, is treated as a decimal ratio and converted to percent. -/
def normGrowthVal (v : ℚ) : ℚ := if -1 < v ∧ v < 1 ∧ v ≠ 0 then v * 100 else v

/-- The `_normalize_growth` helper of `plg_core.py`. -/
def normalize_growth (v : Option ℚ) : Option ℚ := v.map normGrowthVal

/-- Core of `_normalize_retention` on a present value: a value below 2.0 is
treated as a decimal ratio and converted to percent. -/
def normRetVal (v : ℚ) : ℚ := if v < 2 then v * 100 else v

/-- The `_normalize_retention` helper of `plg_core.py`. -/
def normalize_retention (v : Option ℚ) : Option ℚ := v.map normRetVal

/-- True when the optional growth value is present and at least `t`
(models `g is not None and g >= t`). -/
def growthAtLeast (g : Option ℚ) (t : ℚ) : Bool :=
  match g with
  | some v => decide (t ≤ v)
  | none => false

/-- True when the optional value is present and strictly above `t`
(models `x is not None and x > t`). -/
def optGt (x : Option ℚ) (t : ℚ) : Bool :=
  match x with
  | some v => decide (t < v)
  | none => false

/-- True when the optional value is present and strictly below `t`
(models `x is not None and x < t`). -/
def optLt (x : Option ℚ) (t : ℚ) : Bool :=
  match x with
  | some v => decide (v < t)
  | none => false

-- ============================================================
-- CONFIDENCE SCORING (plg_core.py lines 231-296)
-- ============================================================

/-- Retention-signal block of `calculate_confidence_score` (lines 241-253). -/
def retentionCredit (d : CompanyData) : ℚ :=
  match d.ndr with
  | some _ =>
    if d.ndr_tier = 1 then SIGNAL_WEIGHTS "ndr_tier_1"
    else if d.ndr_tier = 2 then SIGNAL_WEIGHTS "ndr_tier_2"
    else if d.ndr_tier = 3 then SIGNAL_WEIGHTS "ndr_tier_3"
    else 0
  | none =>
    if d.dbne.isSome = true ∨ d.gross_retention.isSome = true ∨ d.large_customer_ndr.isSome = true then
      SIGNAL_WEIGHTS "ndr_tier_2"
    else if d.implied_expansion.isSome = true then SIGNAL_WEIGHTS "ndr_tier_3"
    else 0

/-- Revenue-growth presence block of `calculate_confidence_score` (lines 256-257). -/
def growthCredit (d : CompanyData) : ℚ :=
  if d.revenue_growth_yoy.isSome = true then SIGNAL_WEIGHTS "revenue_growth_current" else 0

/-- Revenue-trend block of `calculate_confidence_score` (lines 259-264); the
source tests `is True or is False`, which a bool field always satisfies. -/
def trendCredit (d : CompanyData) : ℚ :=
  if d.revenue_decel_3q = true ∨ d.revenue_decel_3q = false then
    (if d.revenue_decel_3q then SIGNAL_WEIGHTS "revenue_growth_trend"
     else SIGNAL_WEIGHTS "revenue_growth_trend")
  else 0

/-- ARR-disclosed block of `calculate_confidence_score` (lines 266-267). -/
def arrCredit (d : CompanyData) : ℚ :=
  if d.arr_millions.isSome = true then SIGNAL_WEIGHTS "arr_disclosed" else 0

/-- Big-tech-threat-assessed block of `calculate_confidence_score` (lines 271-272). -/
def bigTechCredit (d : CompanyData) : ℚ :=
  if d.big_tech_threat ≠ "unknown" then SIGNAL_WEIGHTS "big_tech_threat_assessed" else 0

/-- Category-stage-assessed block of `calculate_confidence_score` (lines 274-275). -/
def categoryCredit (d : CompanyData) : ℚ :=
  if d.category_stage ≠ "unknown" then SIGNAL_WEIGHTS "category_stage_assessed" else 0

/-- Large-customer-count block of `calculate_confidence_score` (lines 278-279). -/
def custCountCredit (d : CompanyData) : ℚ :=
  if d.customers_100k_plus.isSome = true then SIGNAL_WEIGHTS "large_customer_count" else 0

/-- Customer-growth block of `calculate_confidence_score` (lines 281-282). -/
def custGrowthCredit (d : CompanyData) : ℚ :=
  if d.customer_growth_yoy.isSome = true then SIGNAL_WEIGHTS "customer_growth_rate" else 0

/-- The `calculate_confidence_score` function: the accumulated weighted sum,
rounded to 4 decimal places on return. -/
def calculate_confidence_score (d : CompanyData) : ℚ :=
  round4 (retentionCredit d + growthCredit d + trendCredit d + arrCredit d
    + bigTechCredit d + categoryCredit d + custCountCredit d + custGrowthCredit d)

/-- The `score_to_confidence_level` function. -/
def score_to_confidence_level (score : ℚ) : String :=
  if CONFIDENCE_HIGH ≤ score then "HIGH"
  else if CONFIDENCE_MEDIUM ≤ score then "MEDIUM"
  else if CONFIDENCE_LOW ≤ score then "LOW"
  else "INSUFFICIENT"

-- ============================================================
-- STALENESS CHECKING (plg_core.py lines 303-331)
-- ============================================================

/-- Gregorian leap year test. -/
def isLeap (y : Nat) : Bool := (y % 4 = 0 && y % 100 != 0) || y % 400 = 0

/-- Days in a month of the Gregorian calendar. -/
def daysInMonth (y m : Nat) : Nat :=
  if m = 2 then (if isLeap y then 29 else 28)
  else if m = 4 ∨ m = 6 ∨ m = 9 ∨ m = 11 then 30
  else 31

/-- Civil day number of a Gregorian date (days since 1970-01-01, the standard
days-from-civil algorithm). -/
def daysFromCivil (y m d : Int) : Int :=
  let y2 := if m ≤ 2 then y - 1 else y
  let era := (if 0 ≤ y2 then y2 else y2 - 399) / 400
  let yoe := y2 - era * 400
  let doy := (153 * (m + (if 2 < m then -3 else 9)) + 2) / 5 + d - 1
  let doe := yoe * 365 + yoe / 4 - yoe / 100 + doy
  era * 146097 + doe - 719468

/-- Split a character list at every dash, the character-level equivalent of
splitting the date string on `-`. -/
def splitDash : List Char → List (List Char)
  | [] => [[]]
  | c :: rest =>
    match splitDash rest with
    | [] => [[c]]
    | h :: t => if c = '-' then [] :: h :: t else (c :: h) :: t

/-- Parse a nonempty all-digit character list as a decimal number. -/
def digitsToNat (cs : List Char) : Option Nat :=
  if cs ≠ [] ∧ cs.all Char.isDigit then
    some (cs.foldl (fun a c => a * 10 + (c.toNat - 48)) 0)
  else none

/-- Model of `datetime.strptime(s, "%Y-%m-%d")`: a dash-separated
year-month-day of decimal digits naming a valid Gregorian date, mapped to its
civil day number; `none` on anything unparseable. -/
def parse_date (s : String) : Option Int :=
  match splitDash s.data with
  | [ys, ms, ds] =>
    match digitsToNat ys, digitsToNat ms, digitsToNat ds with
    | some y, some m, some dd =>
      if 1 ≤ y ∧ y ≤ 9999 ∧ ys.length ≤ 4 ∧ 1 ≤ m ∧ m ≤ 12 ∧ ms.length ≤ 2
          ∧ 1 ≤ dd ∧ dd ≤ daysInMonth y m ∧ ds.length ≤ 2 then
        some (daysFromCivil (Int.ofNat y) (Int.ofNat m) (Int.ofNat dd))
      else none
    | _, _, _ => none
  | _ => none

/-- The `check_staleness` function. `now` is the civil day number of
`datetime.now()`; since the parsed date is at midnight, `(now - updated).days`
is exactly `now - parse_date s`. -/
def check_staleness (d : CompanyData) (now : Int) : Bool × List String :=
  match d.data_updated with
  | none => (true, ["data_updated (no date recorded)"])
  | some s =>
    if s = "" then (true, ["data_updated (no date recorded)"])
    else
      match parse_date s with
      | none => (true, ["data_updated (invalid date format)"])
      | some updated =>
        let days_old := now - updated
        let stale_fields :=
          (if STALENESS_FINANCIAL < days_old then
            ["financials (" ++ toString days_old ++ " days old)"] else [])
          ++ (if d.ndr.isSome = true ∧ STALENESS_FINANCIAL < days_old then
            ["NDR (" ++ toString days_old ++ " days old)"] else [])
          ++ (if STALENESS_COMPETITIVE < days_old then
            ["competitive assessment (" ++ toString days_old ++ " days old)"] else [])
        (stale_fields.length > 0, stale_fields)

-- ============================================================
-- RESEARCH RECOMMENDATIONS (plg_core.py lines 338-401)
-- ============================================================

/-- The `recommend_research` function (quotation marks inside the suggestion
texts are dropped). -/
def recommend_research (d : CompanyData) : List String :=
  (if d.ndr = none then
    (if d.ndr_tier = 4 then
      ["Search " ++ d.name ++ " earnings call for NDR/NRR/DBNE disclosure. Try: net dollar retention, net revenue retention, dollar-based net expansion."]
    else if d.ndr_tier = 3 then
      ["Calculate implied expansion for " ++ d.name ++ ": ARR growth - customer growth."]
    else [])
  else [])
  ++ (if d.gross_retention = none ∧ 2 ≤ d.ndr_tier then
    ["Look for " ++ d.name ++ " gross retention rate in earnings call or 10-K. Often disclosed near NDR or churn discussion."] else [])
  ++ (if d.revenue_growth_yoy = none then
    ["Fetch latest quarterly revenue for " ++ d.name ++ " from SEC EDGAR or earnings release."] else [])
  ++ (if d.big_tech_threat = "unknown" then
    ["Assess Big Tech threat for " ++ d.name ++ ": Does AWS/Azure/GCP/Microsoft bundle a competitor?"] else [])
  ++ (if d.category_stage = "unknown" then
    ["Assess category stage for " ++ d.name ++ ": emerging, early_growth, mid_growth, mature, or commoditizing?"] else [])
  ++ (if d.switching_cost = "unknown" then
    ["Assess switching costs for " ++ d.name ++ ": How hard is it to rip and replace?"] else [])
  ++ (if d.customers_100k_plus = none then
    ["Look for $100K+ customer count in " ++ d.name ++ " earnings materials."] else [])
  ++ (if d.business_model = "consumer" ∧ d.arpu_growth_yoy = none then
    ["Find ARPU and active user metrics for " ++ d.name ++ " (consumer model)."] else [])
  ++ (if d.business_model = "marketplace" ∧ d.gmv_growth_yoy = none then
    ["Find GMV and take rate for " ++ d.name ++ " (marketplace model)."] else [])
  ++ (if d.business_model = "transaction_based" ∧ d.tpv_growth_yoy = none then
    ["Find TPV and gross profit margin for " ++ d.name ++ " (transaction model)."] else [])

-- ============================================================
-- TIER ROUTING (plg_core.py lines 408-442)
-- ============================================================

/-- The `_determine_data_tier` router: first match wins; both final source
branches return 4, collapsed here into the default. -/
def determine_data_tier (d : CompanyData) : Int :=
  if d.ndr.isSome = true ∧ d.ndr_tier = 1 then 1
  else if d.ndr.isSome = true ∧ d.ndr_tier = 2 then 2
  else if d.dbne.isSome = true then 2
  else if d.gross_retention.isSome = true then 2
  else if d.large_customer_ndr.isSome = true then 2
  else if d.implied_expansion.isSome = true then 3
  else if d.rpo_growth_yoy.isSome = true then 3
  else 4

-- ============================================================
-- TIER 1 VERDICT: Direct NDR (plg_core.py lines 449-582)
-- ============================================================

/-- Fractional exit-signal total of `_compute_verdict_tier1` (lines 471-495):
the `exit_signals` accumulator after all exit checks. -/
def tier1ExitTotal (d : CompanyData) : ℚ :=
  (match d.ndr with
   | some n => if n < NDR_ENTRY_THRESHOLD then 1 else 0
   | none => 0)
  + (if d.revenue_decel_3q then 1 else 0)
  + (if d.big_tech_announced then 1 else 0)
  + (if d.category_stage = "commoditizing" then 1
     else if d.category_stage = "mature" then 1/2 else 0)
  + (if d.big_tech_threat = "high" ∨ d.big_tech_threat = "very_high" then 1/2 else 0)

/-- The `exit_reasons` list of `_compute_verdict_tier1`. -/
def tier1ExitReasons (d : CompanyData) : List String :=
  (match d.ndr with
   | some n => if n < NDR_ENTRY_THRESHOLD then
      ["NDR " ++ qstr n ++ "% < " ++ qstr NDR_ENTRY_THRESHOLD ++ "%"] else []
   | none => [])
  ++ (if d.revenue_decel_3q then ["Revenue decelerating 3+ quarters"] else [])
  ++ (if d.big_tech_announced then ["Big Tech bundled competitor announced"] else [])
  ++ (if d.category_stage = "commoditizing" then ["Category commoditizing"]
      else if d.category_stage = "mature" then ["Category mature (partial)"] else [])
  ++ (if d.big_tech_threat = "high" ∨ d.big_tech_threat = "very_high" then
      ["Big Tech threat: " ++ d.big_tech_threat] else [])

/-- Fractional entry-signal total of `_compute_verdict_tier1` (lines 498-546):
the `entry_signals` accumulator after the five entry checks. -/
def tier1EntryTotal (d : CompanyData) : ℚ :=
  (match d.ndr with
   | some n => if NDR_ENTRY_THRESHOLD ≤ n then 1 else 0
   | none => 0)
  + (match normalize_growth d.revenue_growth_yoy with
     | some g =>
       if GROWTH_ENTRY_THRESHOLD ≤ g then 1
       else if GROWTH_PARTIAL_THRESHOLD ≤ g then 1/2 else 0
     | none => 0)
  + (if d.category_stage = "emerging" ∨ d.category_stage = "early_growth" then 1
     else if d.category_stage = "mid_growth" then 1/2 else 0)
  + (if d.big_tech_threat = "low" ∨ d.big_tech_threat = "medium" then 1 else 0)
  + (if d.switching_cost = "high" then 1
     else if d.switching_cost = "medium" then 1/2 else 0)

/-- The `entry_details` list of `_compute_verdict_tier1`. -/
def tier1EntryDetails (d : CompanyData) : List String :=
  (match d.ndr with
   | some n => if NDR_ENTRY_THRESHOLD ≤ n then ["NDR " ++ qstr n ++ "%"] else []
   | none => [])
  ++ (match normalize_growth d.revenue_growth_yoy with
     | some g =>
       if GROWTH_ENTRY_THRESHOLD ≤ g then ["Growth " ++ fmt0 g ++ "%"]
       else if GROWTH_PARTIAL_THRESHOLD ≤ g then ["Growth " ++ fmt0 g ++ "% (partial)"]
       else []
     | none => [])
  ++ (if d.category_stage = "emerging" ∨ d.category_stage = "early_growth" then
      ["Category: " ++ d.category_stage]
      else if d.category_stage = "mid_growth" then ["Category: mid_growth (partial)"] else [])
  ++ (if d.big_tech_threat = "low" ∨ d.big_tech_threat = "medium" then
      ["Big Tech threat: " ++ d.big_tech_threat] else [])
  ++ (if d.switching_cost = "high" then ["High switching costs"]
      else if d.switching_cost = "medium" then ["Medium switching costs (partial)"] else [])

/-- The `missing` list accumulated by `_compute_verdict_tier1`. -/
def tier1Missing (d : CompanyData) : List String :=
  (if d.ndr = none then ["NDR"] else [])
  ++ (if normalize_growth d.revenue_growth_yoy = none then ["Revenue growth"] else [])
  ++ (if d.category_stage = "unknown" then ["Category stage"] else [])
  ++ (if d.big_tech_threat = "unknown" then ["Big Tech threat assessment"] else [])
  ++ (if d.switching_cost = "unknown" then ["Switching cost assessment"] else [])

/-- The elite condition of `_compute_verdict_tier1` (lines 555-556):
NDR at least 120 and growth at least 30, both present. -/
def tier1Elite (d : CompanyData) : Bool :=
  match d.ndr, normalize_growth d.revenue_growth_yoy with
  | some n, some g => decide (NDR_ELITE_THRESHOLD ≤ n) && decide (GROWTH_ELITE_THRESHOLD ≤ g)
  | _, _ => false

/-- The verdict decision chain of `_compute_verdict_tier1` (lines 549-570),
comparing the untruncated fractional totals against the thresholds. -/
def tier1Decision (exitT entryT : ℚ) (elite : Bool) : String :=
  if EXIT_SELL ≤ exitT then "SELL"
  else if EXIT_WATCH ≤ exitT then "WATCH"
  else if elite then "STRONG_BUY"
  else if ENTRY_STRONG_BUY ≤ entryT then "STRONG_BUY"
  else if ENTRY_BUY ≤ entryT then "BUY"
  else if ENTRY_WATCH ≤ entryT then "WATCH"
  else "AVOID"

/-- The rationale chain of `_compute_verdict_tier1`, branch for branch with
`tier1Decision`. -/
def tier1Rationale (d : CompanyData) : String :=
  let exitT := tier1ExitTotal d
  let entryT := tier1EntryTotal d
  let growth := normalize_growth d.revenue_growth_yoy
  if EXIT_SELL ≤ exitT then
    "Exit signals (" ++ fmt1 exitT ++ "): " ++ joinSemi (tier1ExitReasons d)
  else if EXIT_WATCH ≤ exitT then
    "Warning (" ++ fmt1 exitT ++ " exit signals): " ++ joinSemi (tier1ExitReasons d)
  else if tier1Elite d then
    "Elite: NDR " ++ qstr (d.ndr.getD 0) ++ "%, growth " ++ fmt0 (growth.getD 0)
      ++ "%. Entry " ++ fmt1 entryT ++ "/5: " ++ joinSemi (tier1EntryDetails d)
  else if ENTRY_STRONG_BUY ≤ entryT then
    "All 5 entry signals: " ++ joinSemi (tier1EntryDetails d)
  else if ENTRY_BUY ≤ entryT then
    "Entry " ++ fmt1 entryT ++ "/5: " ++ joinSemi (tier1EntryDetails d)
  else if ENTRY_WATCH ≤ entryT then
    "Entry " ++ fmt1 entryT ++ "/5: " ++ joinSemi (tier1EntryDetails d)
  else
    "Only " ++ fmt1 entryT ++ "/5 entry signals: "
      ++ (let j := joinSemi (tier1EntryDetails d); if j = "" then "none" else j)

/-- The `_compute_verdict_tier1` scorer. Confidence is filled in later by
`compute_verdict`; the fractional totals are truncated to integers only here,
in the outcome fields. -/
def compute_verdict_tier1 (d : CompanyData) : VerdictResult :=
  { ticker := d.ticker
    verdict := tier1Decision (tier1ExitTotal d) (tier1EntryTotal d) (tier1Elite d)
    confidence := ""
    confidence_score := 0
    rationale := tier1Rationale d
    data_tier := 1
    missing_signals := tier1Missing d
    entry_signals_met := (truncInt (tier1EntryTotal d) : ℚ)
    exit_signals_triggered := (truncInt (tier1ExitTotal d) : ℚ) }

-- ============================================================
-- TIER 2 VERDICT: Variant Metrics (plg_core.py lines 589-764)
-- ============================================================

/-- Per-metric classification used by `_interpret_retention_signal`: the
strong/healthy/acceptable/weak thresholds of one variant metric. -/
def retClass (v hi mid lo : ℚ) : String :=
  if hi ≤ v then "strong"
  else if mid ≤ v then "healthy"
  else if lo ≤ v then "acceptable"
  else "weak"

/-- The `_interpret_retention_signal` helper: classify each available variant
metric, then aggregate (any weak dominates, otherwise the most optimistic wins). -/
def interpret_retention_signal (d : CompanyData) : String :=
  let signals : List String :=
    (match d.dbne with
     | some x => [retClass (normRetVal x) DBNE_STRONG DBNE_HEALTHY DBNE_ACCEPTABLE]
     | none => [])
    ++ (match d.gross_retention with
     | some x => [retClass (normRetVal x) GR_STRONG GR_HEALTHY GR_ACCEPTABLE]
     | none => [])
    ++ (match d.large_customer_ndr with
     | some x => [retClass (normRetVal x) LARGE_CUST_NDR_STRONG LARGE_CUST_NDR_HEALTHY LARGE_CUST_NDR_ACCEPTABLE]
     | none => [])
    ++ (match d.ndr with
     | some n => if d.ndr_tier = 2 then [retClass n NDR_ELITE_THRESHOLD NDR_ENTRY_THRESHOLD 100] else []
     | none => [])
  if signals = [] then "unknown"
  else if "weak" ∈ signals then "weak"
  else if "strong" ∈ signals then "strong"
  else if "healthy" ∈ signals then "healthy"
  else "acceptable"

/-- The `details` list of `_compute_verdict_tier2`. -/
def tier2Details (d : CompanyData) : List String :=
  (match d.dbne with
   | some x => ["DBNE " ++ fmt0 (normRetVal x) ++ "%"]
   | none => [])
  ++ (match d.gross_retention with
   | some x => ["GR " ++ fmt0 (normRetVal x) ++ "%"]
   | none => [])
  ++ (match d.large_customer_ndr with
   | some x => ["Large Cust NDR " ++ fmt0 (normRetVal x) ++ "%"]
   | none => [])
  ++ (match d.ndr with
   | some n => if d.ndr_tier = 2 then ["NDR ~" ++ qstr n ++ "% (approximate)"] else []
   | none => [])

/-- Fractional exit-signal total of `_compute_verdict_tier2` (lines 695-712):
the Tier 1 exit checks minus the NDR check. -/
def tier2ExitTotal (d : CompanyData) : ℚ :=
  (if d.revenue_decel_3q then 1 else 0)
  + (if d.big_tech_announced then 1 else 0)
  + (if d.category_stage = "commoditizing" then 1
     else if d.category_stage = "mature" then 1/2 else 0)
  + (if d.big_tech_threat = "high" ∨ d.big_tech_threat = "very_high" then 1/2 else 0)

/-- The `exit_reasons` list of `_compute_verdict_tier2`. -/
def tier2ExitReasons (d : CompanyData) : List String :=
  (if d.revenue_decel_3q then ["Revenue decelerating 3+ quarters"] else [])
  ++ (if d.big_tech_announced then ["Big Tech bundled competitor announced"] else [])
  ++ (if d.category_stage = "commoditizing" then ["Category commoditizing"]
      else if d.category_stage = "mature" then ["Category mature (partial)"] else [])
  ++ (if d.big_tech_threat = "high" ∨ d.big_tech_threat = "very_high" then
      ["Big Tech threat: " ++ d.big_tech_threat] else [])

/-- Fractional entry-signal total of `_compute_verdict_tier2` (lines 733-739). -/
def tier2EntryTotal (d : CompanyData) : ℚ :=
  (if interpret_retention_signal d = "strong" ∨ interpret_retention_signal d = "healthy"
   then 1 else 0)
  + (if growthAtLeast (normalize_growth d.revenue_growth_yoy) GROWTH_ENTRY_THRESHOLD then 1
     else if growthAtLeast (normalize_growth d.revenue_growth_yoy) GROWTH_PARTIAL_THRESHOLD then 1/2
     else 0)

/-- The `_compute_verdict_tier2` scorer: weak retention is an immediate SELL,
then the Tier 1 style exit check, then the entry logic. -/
def compute_verdict_tier2 (d : CompanyData) : VerdictResult :=
  let growth := normalize_growth d.revenue_growth_yoy
  let retention_signal := interpret_retention_signal d
  let details := tier2Details d
  if retention_signal = "weak" then
    { ticker := d.ticker, verdict := "SELL", confidence := "", confidence_score := 0
      rationale := "Tier 2: Weak retention (" ++ joinSemi details ++ ")"
      data_tier := 2, missing_signals := []
      entry_signals_met := 0, exit_signals_triggered := 1 }
  else if EXIT_SELL ≤ tier2ExitTotal d then
    { ticker := d.ticker, verdict := "SELL", confidence := "", confidence_score := 0
      rationale := "Tier 2: Exit signals (" ++ qstr (tier2ExitTotal d) ++ "): "
        ++ joinSemi (tier2ExitReasons d)
      data_tier := 2, missing_signals := []
      -- source line 726 stores the raw fractional total here, with no int()
      entry_signals_met := 0, exit_signals_triggered := tier2ExitTotal d }
  else
    let missing0 := if growth = none then ["Revenue growth"] else []
    let growth_str := match growth with
      | some g => ", growth " ++ fmt0 g ++ "%"
      | none => ""
    if retention_signal = "strong" ∧ growthAtLeast growth GROWTH_ENTRY_THRESHOLD = true then
      { ticker := d.ticker, verdict := "BUY", confidence := "", confidence_score := 0
        rationale := "Tier 2: Strong retention + " ++ fmt0 (growth.getD 0) ++ "% growth. "
          ++ joinSemi details
        data_tier := 2, missing_signals := missing0
        entry_signals_met := (truncInt (tier2EntryTotal d) : ℚ)
        exit_signals_triggered := (truncInt (tier2ExitTotal d) : ℚ) }
    else if (retention_signal = "healthy" ∨ retention_signal = "strong")
        ∧ growthAtLeast growth GROWTH_PARTIAL_THRESHOLD = true then
      { ticker := d.ticker, verdict := "WATCH", confidence := "", confidence_score := 0
        rationale := "Tier 2: " ++ retention_signal.capitalize ++ " retention" ++ growth_str
          ++ ". " ++ joinSemi details ++ ". Verify with Tier 1 data."
        data_tier := 2, missing_signals := missing0
        entry_signals_met := (truncInt (tier2EntryTotal d) : ℚ)
        exit_signals_triggered := (truncInt (tier2ExitTotal d) : ℚ) }
    else
      { ticker := d.ticker, verdict := "WATCH", confidence := "", confidence_score := 0
        rationale := "Tier 2: " ++ retention_signal.capitalize ++ " retention" ++ growth_str
          ++ ". Incomplete data - manual research recommended."
        data_tier := 2, missing_signals := missing0 ++ ["Direct NDR for higher confidence"]
        entry_signals_met := (truncInt (tier2EntryTotal d) : ℚ)
        exit_signals_triggered := (truncInt (tier2ExitTotal d) : ℚ) }

-- ============================================================
-- TIER 3 VERDICT: Derived Signals (plg_core.py lines 771-861)
-- ============================================================

/-- The implied-expansion bucket of `_compute_verdict_tier3` (lines 782-794). -/
def tier3Expansion (d : CompanyData) : String :=
  match d.implied_expansion with
  | some x =>
    let ie := normGrowthVal x
    if IMPLIED_EXP_STRONG < ie then "strong"
    else if IMPLIED_EXP_HEALTHY < ie then "healthy"
    else if 0 < ie then "modest"
    else "negative"
  | none => "unknown"

/-- The RPO forward-indicator bucket of `_compute_verdict_tier3` (lines 797-807). -/
def tier3RpoSignal (d : CompanyData) : String :=
  match d.rpo_growth_yoy, normalize_growth d.revenue_growth_yoy with
  | some r, some g =>
    let rpo := normGrowthVal r
    if g + RPO_ACCELERATING_DELTA < rpo then "accelerating"
    else if g < rpo then "healthy"
    else "decelerating"
  | _, _ => "unknown"

/-- The `details` list of `_compute_verdict_tier3`. -/
def tier3Details (d : CompanyData) : List String :=
  (match d.implied_expansion with
   | some x => ["Implied expansion: " ++ fmt0 (normGrowthVal x) ++ "%"]
   | none => [])
  ++ (match d.rpo_growth_yoy, normalize_growth d.revenue_growth_yoy with
   | some r, some _ => ["RPO growth: " ++ fmt0 (normGrowthVal r) ++ "%"]
   | _, _ => [])

/-- The `_compute_verdict_tier3` scorer: negative implied expansion is an
immediate SELL, everything else caps at WATCH. -/
def compute_verdict_tier3 (d : CompanyData) : VerdictResult :=
  let growth := normalize_growth d.revenue_growth_yoy
  let expansion := tier3Expansion d
  let details := tier3Details d
  if expansion = "negative" then
    { ticker := d.ticker, verdict := "SELL", confidence := "", confidence_score := 0
      rationale := "Tier 3: Negative implied expansion (" ++ joinSemi details
        ++ "). Customers contracting."
      data_tier := 3, missing_signals := []
      entry_signals_met := 0, exit_signals_triggered := 1 }
  else
    let growth_str := match growth with
      | some g => ", growth " ++ fmt0 g ++ "%"
      | none => ""
    let growth_missing := if growth = none then ["Revenue growth"] else []
    if expansion = "strong" ∧ growthAtLeast growth GROWTH_ENTRY_THRESHOLD = true then
      { ticker := d.ticker, verdict := "WATCH", confidence := "", confidence_score := 0
        rationale := "Tier 3: Strong implied expansion" ++ growth_str ++ ". "
          ++ joinSemi details ++ ". Promising but needs Tier 1/2 NDR data to upgrade to BUY."
        data_tier := 3
        missing_signals := ["Direct NDR or variant metric for BUY upgrade"] ++ growth_missing
        entry_signals_met := 0, exit_signals_triggered := 0 }
    else if tier3RpoSignal d = "accelerating" then
      { ticker := d.ticker, verdict := "WATCH", confidence := "", confidence_score := 0
        rationale := "Tier 3: RPO accelerating" ++ growth_str ++ ". " ++ joinSemi details
          ++ ". Forward demand strong but retention data needed."
        data_tier := 3
        missing_signals := ["NDR or retention data"] ++ growth_missing
        entry_signals_met := 0, exit_signals_triggered := 0 }
    else
      { ticker := d.ticker, verdict := "WATCH", confidence := "", confidence_score := 0
        rationale := "Tier 3: " ++ expansion.capitalize ++ " expansion" ++ growth_str ++ ". "
          ++ joinSemi details ++ ". Insufficient retention data - manual research required."
        data_tier := 3
        missing_signals := ["NDR, GR, or DBNE for meaningful verdict"] ++ growth_missing
        entry_signals_met := 0, exit_signals_triggered := 0 }

-- ============================================================
-- TIER 4 VERDICT: Non-SaaS / Insufficient (plg_core.py lines 868-1134)
-- ============================================================

/-- The `_compute_verdict_tier4_consumer` scorer: ARPU growth and user growth. -/
def compute_verdict_tier4_consumer (d : CompanyData) (growth : Option ℚ) : VerdictResult :=
  let arpu := normalize_growth d.arpu_growth_yoy
  let user_growth := normalize_growth d.active_user_growth_yoy
  let details :=
    (match arpu with
     | some a => ["ARPU growth: " ++ fmt0 a ++ "%"]
     | none => [])
    ++ (match user_growth with
     | some u => ["User growth: " ++ fmt0 u ++ "%"]
     | none => [])
    ++ (match growth with
     | some g => ["Revenue growth: " ++ fmt0 g ++ "%"]
     | none => [])
  let missing :=
    (if arpu = none then ["ARPU growth"] else [])
    ++ (if user_growth = none then ["Active user growth"] else [])
  if optLt arpu 0 then
    { ticker := d.ticker, verdict := "SELL", confidence := "", confidence_score := 0
      rationale := "Tier 4 Consumer: ARPU declining (" ++ fmt0 (arpu.getD 0)
        ++ "%). Monetization pressure. " ++ joinSemi details
      data_tier := 4, missing_signals := missing
      entry_signals_met := 0, exit_signals_triggered := 1 }
  else if optGt arpu CONSUMER_ARPU_GROWTH_BUY = true
      ∧ optGt user_growth CONSUMER_USER_GROWTH_BUY = true then
    { ticker := d.ticker, verdict := "BUY", confidence := "", confidence_score := 0
      rationale := "Tier 4 Consumer: Strong ARPU + user growth. " ++ joinSemi details
      data_tier := 4, missing_signals := missing
      entry_signals_met := 2, exit_signals_triggered := 0 }
  else if optGt growth CONSUMER_REVENUE_GROWTH_WATCH then
    { ticker := d.ticker, verdict := "WATCH", confidence := "", confidence_score := 0
      rationale := "Tier 4 Consumer: Strong revenue growth (" ++ fmt0 (growth.getD 0)
        ++ "%), verify unit economics. " ++ joinSemi details
      data_tier := 4, missing_signals := missing
      entry_signals_met := 1, exit_signals_triggered := 0 }
  else
    { ticker := d.ticker, verdict := "WATCH", confidence := "", confidence_score := 0
      rationale := "Tier 4 Consumer: Insufficient consumer metrics. "
        ++ (let j := joinSemi details; if j = "" then "No details" else j)
      data_tier := 4, missing_signals := missing
      entry_signals_met := 0, exit_signals_triggered := 0 }

/-- The `_compute_verdict_tier4_marketplace` scorer: GMV growth and take-rate trend. -/
def compute_verdict_tier4_marketplace (d : CompanyData) (growth : Option ℚ) : VerdictResult :=
  let gmv := normalize_growth d.gmv_growth_yoy
  let details :=
    (match gmv with
     | some g => ["GMV growth: " ++ fmt0 g ++ "%"]
     | none => [])
    ++ (match d.take_rate with
     | some t => ["Take rate: " ++ fmt1 t ++ "%"]
     | none => [])
    ++ (match d.take_rate_trend with
     | some s => ["Take rate trend: " ++ s]
     | none => [])
    ++ (match growth with
     | some g => ["Revenue growth: " ++ fmt0 g ++ "%"]
     | none => [])
  let missing :=
    (if gmv = none then ["GMV growth"] else [])
    ++ (if d.take_rate_trend = none then ["Take rate trend"] else [])
  if d.take_rate_trend = some "decreasing" then
    { ticker := d.ticker, verdict := "WATCH", confidence := "", confidence_score := 0
      rationale := "Tier 4 Marketplace: Take rate decreasing (commoditization risk). "
        ++ joinSemi details
      data_tier := 4, missing_signals := missing
      entry_signals_met := 0, exit_signals_triggered := 1 }
  else if optGt gmv MARKETPLACE_GMV_GROWTH_BUY = true
      ∧ d.take_rate_trend ≠ some "decreasing" then
    { ticker := d.ticker, verdict := "BUY", confidence := "", confidence_score := 0
      rationale := "Tier 4 Marketplace: Strong GMV growth with stable/growing take rate. "
        ++ joinSemi details
      data_tier := 4, missing_signals := missing
      entry_signals_met := 2, exit_signals_triggered := 0 }
  else
    { ticker := d.ticker, verdict := "WATCH", confidence := "", confidence_score := 0
      rationale := "Tier 4 Marketplace: Insufficient marketplace metrics. "
        ++ (let j := joinSemi details; if j = "" then "No details" else j)
      data_tier := 4, missing_signals := missing
      entry_signals_met := 0, exit_signals_triggered := 0 }

/-- The `_compute_verdict_tier4_transaction` scorer: gross-profit growth against
TPV growth. -/
def compute_verdict_tier4_transaction (d : CompanyData) (growth : Option ℚ) : VerdictResult :=
  let gp_growth := normalize_growth d.gross_profit_growth_yoy
  let tpv_growth := normalize_growth d.tpv_growth_yoy
  let details :=
    (match gp_growth with
     | some g => ["GP growth: " ++ fmt0 g ++ "%"]
     | none => [])
    ++ (match tpv_growth with
     | some t => ["TPV growth: " ++ fmt0 t ++ "%"]
     | none => [])
    ++ (match growth with
     | some g => ["Revenue growth: " ++ fmt0 g ++ "%"]
     | none => [])
  let missing :=
    (if gp_growth = none then ["Gross profit growth"] else [])
    ++ (if tpv_growth = none then ["TPV growth"] else [])
  let default_watch : VerdictResult :=
    { ticker := d.ticker, verdict := "WATCH", confidence := "", confidence_score := 0
      rationale := "Tier 4 Transaction: Insufficient transaction metrics. "
        ++ (let j := joinSemi details; if j = "" then "No details" else j)
      data_tier := 4, missing_signals := missing
      entry_signals_met := 0, exit_signals_triggered := 0 }
  match gp_growth, tpv_growth with
  | some gp, some tpv =>
    if gp < tpv - TRANSACTION_MARGIN_COMPRESSION_DELTA then
      { ticker := d.ticker, verdict := "SELL", confidence := "", confidence_score := 0
        rationale := "Tier 4 Transaction: Margin compression (GP growth " ++ fmt0 gp
          ++ "% << TPV growth " ++ fmt0 tpv ++ "%). " ++ joinSemi details
        data_tier := 4, missing_signals := missing
        entry_signals_met := 0, exit_signals_triggered := 1 }
    else if tpv < gp then
      { ticker := d.ticker, verdict := "WATCH", confidence := "", confidence_score := 0
        rationale := "Tier 4 Transaction: GP outpacing TPV (improving margins). "
          ++ joinSemi details ++ ". Verify sustainability."
        data_tier := 4, missing_signals := missing
        entry_signals_met := 1, exit_signals_triggered := 0 }
    else default_watch
  | _, _ => default_watch

/-- Fractional exit-signal total of `_compute_verdict_tier4_insufficient`
(lines 1074-1085): as Tier 1 but with no NDR check and no mature partial credit. -/
def tier4ExitTotal (d : CompanyData) : ℚ :=
  (if d.revenue_decel_3q then 1 else 0)
  + (if d.big_tech_announced then 1 else 0)
  + (if d.category_stage = "commoditizing" then 1 else 0)
  + (if d.big_tech_threat = "high" ∨ d.big_tech_threat = "very_high" then 1/2 else 0)

/-- The `exit_reasons` list of `_compute_verdict_tier4_insufficient`. -/
def tier4ExitReasons (d : CompanyData) : List String :=
  (if d.revenue_decel_3q then ["Revenue decelerating 3+ quarters"] else [])
  ++ (if d.big_tech_announced then ["Big Tech bundled competitor announced"] else [])
  ++ (if d.category_stage = "commoditizing" then ["Category commoditizing"] else [])
  ++ (if d.big_tech_threat = "high" ∨ d.big_tech_threat = "very_high" then
      ["Big Tech threat: " ++ d.big_tech_threat] else [])

/-- Fractional entry-signal total of `_compute_verdict_tier4_insufficient`
(lines 1097-1104). -/
def tier4EntryTotal (d : CompanyData) (growth : Option ℚ) : ℚ :=
  (if growthAtLeast growth GROWTH_ENTRY_THRESHOLD then 1 else 0)
  + (if d.category_stage = "emerging" ∨ d.category_stage = "early_growth" then 1 else 0)
  + (if (d.big_tech_threat = "low" ∨ d.big_tech_threat = "medium")
        ∧ d.big_tech_threat ≠ "unknown" then 1/2 else 0)
  + (if d.switching_cost = "high" then 1/2 else 0)

/-- The `_compute_verdict_tier4_insufficient` scorer: B2B SaaS with no
retention data at all; exit signals can force SELL, everything else is WATCH. -/
def compute_verdict_tier4_insufficient (d : CompanyData) (growth : Option ℚ) : VerdictResult :=
  let details := match growth with
    | some g => ["Revenue growth: " ++ fmt0 g ++ "%"]
    | none => []
  let missing := ["NDR/NRR (no retention data available)"]
  if EXIT_SELL ≤ tier4ExitTotal d then
    { ticker := d.ticker, verdict := "SELL", confidence := "", confidence_score := 0
      rationale := "Tier 4 (no retention data): Exit signals (" ++ fmt1 (tier4ExitTotal d)
        ++ "): " ++ joinSemi (tier4ExitReasons d)
      data_tier := 4, missing_signals := missing
      entry_signals_met := 0, exit_signals_triggered := (truncInt (tier4ExitTotal d) : ℚ) }
  else
    let growth_str := match growth with
      | some g => ", growth " ++ fmt0 g ++ "%"
      | none => ""
    let rationale :=
      if 2 ≤ tier4EntryTotal d growth then
        "Tier 4 (no retention data): Some positive signals" ++ growth_str ++ ". "
          ++ joinSemi details ++ ". Research NDR for upgrade."
      else if 0 < tier4ExitTotal d then
        "Tier 4 (no retention data): Mixed signals" ++ growth_str ++ ". Exit warning: "
          ++ joinSemi (tier4ExitReasons d) ++ ". Research NDR."
      else
        "Tier 4 (no retention data): Insufficient data for conviction" ++ growth_str
          ++ ". Research NDR before acting."
    { ticker := d.ticker, verdict := "WATCH", confidence := "", confidence_score := 0
      rationale := rationale
      data_tier := 4, missing_signals := missing
      entry_signals_met := (truncInt (tier4EntryTotal d growth) : ℚ)
      exit_signals_triggered := (truncInt (tier4ExitTotal d) : ℚ) }

/-- The `_compute_verdict_tier4` dispatcher on business model. -/
def compute_verdict_tier4 (d : CompanyData) : VerdictResult :=
  let growth := normalize_growth d.revenue_growth_yoy
  if d.business_model = "consumer" then compute_verdict_tier4_consumer d growth
  else if d.business_model = "marketplace" then compute_verdict_tier4_marketplace d growth
  else if d.business_model = "transaction_based" then compute_verdict_tier4_transaction d growth
  else compute_verdict_tier4_insufficient d growth

-- ============================================================
-- MAIN ENTRY POINT (plg_core.py lines 1141-1175)
-- ============================================================

/-- The `compute_verdict` orchestrator: route to the tier scorer, then attach
confidence, staleness, research recommendations and the computation time
(`now`, the civil day number of the wall clock). -/
def compute_verdict (d : CompanyData) (now : Int) : VerdictResult :=
  let tier := determine_data_tier d
  let result :=
    if tier = 1 then compute_verdict_tier1 d
    else if tier = 2 then compute_verdict_tier2 d
    else if tier = 3 then compute_verdict_tier3 d
    else compute_verdict_tier4 d
  let cs := calculate_confidence_score d
  let st := check_staleness d now
  { result with
    confidence_score := cs
    confidence := score_to_confidence_level cs
    staleness_warning := st.1
    stale_fields := st.2
    research_recommendations := recommend_research d
    last_updated := some now }

-- ============================================================
-- CONCRETE COMPANIES USED BY THE THEOREMS BELOW
-- ============================================================

/-- A company record with only the mandatory identity fields set, mirroring
the `make_company()` helper of `test_plg_core.py`. -/
def baseCompany : CompanyData :=
  { ticker := "TEST", name := "Test Company", category := "infrastructure"
    business_model := "b2b_saas" }

/-- The SELL-via-commoditization scenario exactly as the spec states it:
NDR 87, growth -0.01, big-tech very_high, category commoditizing, every other
optional field absent and every default (in particular `ndr_tier = 4`) untouched. -/
def scenarioCommoditizing : CompanyData :=
  { baseCompany with
    ndr := some 87, revenue_growth_yoy := some (-1/100),
    big_tech_threat := "very_high", category_stage := "commoditizing" }

/-- The SELL-via-commoditization scenario with the NDR marked as a direct
tier-1 disclosure, as in the repository test
`test_sell_ndr_below_threshold_plus_commoditizing`. -/
def scenarioCommoditizingTier1 : CompanyData :=
  { scenarioCommoditizing with ndr_tier := 1 }

/-- A company with two full exit signals (deceleration and a big-tech
announcement) and all five entry signals. -/
def exitHeavyCompany : CompanyData :=
  { baseCompany with
    ndr := some 125, ndr_tier := 1, revenue_growth_yoy := some (4/10),
    big_tech_threat := "low", category_stage := "emerging", switching_cost := "high",
    revenue_decel_3q := true, big_tech_announced := true }

/-- A tier-2 company with the same two full exit signals and a healthy DBNE. -/
def exitHeavyCompanyTier2 : CompanyData :=
  { baseCompany with
    dbne := some 115, revenue_growth_yoy := some (4/10),
    revenue_decel_3q := true, big_tech_announced := true }

/-- A company whose only retention signal is a variant metric (DBNE), with no
NDR at all. -/
def confVariantOnly : CompanyData := { baseCompany with dbne := some 110 }

/-- A company whose only retention signal is a variant metric (DBNE). -/
def confA : CompanyData := { baseCompany with dbne := some 110 }

/-- `confA` with one more populated field: an NDR value whose `ndr_tier`
stays at the default 4. -/
def confB : CompanyData := { confA with ndr := some 115 }

/-- A bare company, subset side of the monotonicity witness. -/
def confWA : CompanyData := baseCompany

/-- `confWA` with one more populated field (revenue growth). -/
def confWB : CompanyData := { baseCompany with revenue_growth_yoy := some (1/4) }

/-- A company whose data was updated on 2024-01-01 and that discloses an NDR. -/
def staleCompany : CompanyData :=
  { baseCompany with
    data_updated := some "2024-01-01", ndr := some 115, ndr_tier := 1 }

/-- A marketplace company with strong GMV growth, no take-rate trend and no
retention data of any kind. -/
def marketNoTrend : CompanyData :=
  { baseCompany with
    business_model := "marketplace", gmv_growth_yoy := some 50 }

/-- `marketNoTrend` with a direct NDR disclosure added, which re-routes the
company away from the Tier 4 marketplace scorer. -/
def marketWithNdr : CompanyData :=
  { marketNoTrend with ndr := some 90, ndr_tier := 1 }

/-- A tier-2 company (healthy DBNE) with deceleration, a big-tech
announcement and a high big-tech threat: its fractional exit total is 2.5,
which the tier-2 exit-SELL return stores untruncated. -/
def tier2UntruncatedExit : CompanyData :=
  { baseCompany with
    dbne := some 115, revenue_decel_3q := true, big_tech_announced := true,
    big_tech_threat := "high" }

/-- B populates a superset of the fields populated in A: all mandatory fields
agree, every optional field present in A is present in B with the same value,
and every assessment explicitly set in A (away from the default `unknown`)
carries over to B unchanged. -/
def populates (A B : CompanyData) : Prop :=
  A.ticker = B.ticker ∧ A.name = B.name ∧ A.category = B.category
  ∧ A.business_model = B.business_model
  ∧ A.ndr_tier = B.ndr_tier
  ∧ A.big_tech_announced = B.big_tech_announced
  ∧ A.revenue_decel_3q = B.revenue_decel_3q
  ∧ A.cik = B.cik ∧ A.data_as_of = B.data_as_of ∧ A.notes = B.notes
  ∧ (A.market_cap.isSome = true → B.market_cap = A.market_cap)
  ∧ (A.revenue_ttm.isSome = true → B.revenue_ttm = A.revenue_ttm)
  ∧ (A.revenue_growth_yoy.isSome = true → B.revenue_growth_yoy = A.revenue_growth_yoy)
  ∧ (A.gross_margin.isSome = true → B.gross_margin = A.gross_margin)
  ∧ (A.operating_margin.isSome = true → B.operating_margin = A.operating_margin)
  ∧ (A.current_price.isSome = true → B.current_price = A.current_price)
  ∧ (A.ndr.isSome = true → B.ndr = A.ndr)
  ∧ (A.gross_retention.isSome = true → B.gross_retention = A.gross_retention)
  ∧ (A.dbne.isSome = true → B.dbne = A.dbne)
  ∧ (A.large_customer_ndr.isSome = true → B.large_customer_ndr = A.large_customer_ndr)
  ∧ (A.implied_expansion.isSome = true → B.implied_expansion = A.implied_expansion)
  ∧ (A.rpo_growth_yoy.isSome = true → B.rpo_growth_yoy = A.rpo_growth_yoy)
  ∧ (A.arpu_growth_yoy.isSome = true → B.arpu_growth_yoy = A.arpu_growth_yoy)
  ∧ (A.active_user_growth_yoy.isSome = true → B.active_user_growth_yoy = A.active_user_growth_yoy)
  ∧ (A.gmv_growth_yoy.isSome = true → B.gmv_growth_yoy = A.gmv_growth_yoy)
  ∧ (A.take_rate.isSome = true → B.take_rate = A.take_rate)
  ∧ (A.take_rate_trend.isSome = true → B.take_rate_trend = A.take_rate_trend)
  ∧ (A.tpv_growth_yoy.isSome = true → B.tpv_growth_yoy = A.tpv_growth_yoy)
  ∧ (A.gross_profit_growth_yoy.isSome = true → B.gross_profit_growth_yoy = A.gross_profit_growth_yoy)
  ∧ (A.arr_millions.isSome = true → B.arr_millions = A.arr_millions)
  ∧ (A.customers_100k_plus.isSome = true → B.customers_100k_plus = A.customers_100k_plus)
  ∧ (A.customer_growth_yoy.isSome = true → B.customer_growth_yoy = A.customer_growth_yoy)
  ∧ (A.data_updated.isSome = true → B.data_updated = A.data_updated)
  ∧ (A.big_tech_threat ≠ "unknown" → B.big_tech_threat = A.big_tech_threat)
  ∧ (A.category_stage ≠ "unknown" → B.category_stage = A.category_stage)
  ∧ (A.switching_cost ≠ "unknown" → B.switching_cost = A.switching_cost)

/-- B has at least one field populated, or one assessment explicitly set,
that A does not (the strictness half of the superset relation). -/
def addsSomething (A B : CompanyData) : Prop :=
  (A.market_cap = none ∧ B.market_cap ≠ none)
  ∨ (A.revenue_ttm = none ∧ B.revenue_ttm ≠ none)
  ∨ (A.revenue_growth_yoy = none ∧ B.revenue_growth_yoy ≠ none)
  ∨ (A.gross_margin = none ∧ B.gross_margin ≠ none)
  ∨ (A.operating_margin = none ∧ B.operating_margin ≠ none)
  ∨ (A.current_price = none ∧ B.current_price ≠ none)
  ∨ (A.ndr = none ∧ B.ndr ≠ none)
  ∨ (A.gross_retention = none ∧ B.gross_retention ≠ none)
  ∨ (A.dbne = none ∧ B.dbne ≠ none)
  ∨ (A.large_customer_ndr = none ∧ B.large_customer_ndr ≠ none)
  ∨ (A.implied_expansion = none ∧ B.implied_expansion ≠ none)
  ∨ (A.rpo_growth_yoy = none ∧ B.rpo_growth_yoy ≠ none)
  ∨ (A.arpu_growth_yoy = none ∧ B.arpu_growth_yoy ≠ none)
  ∨ (A.active_user_growth_yoy = none ∧ B.active_user_growth_yoy ≠ none)
  ∨ (A.gmv_growth_yoy = none ∧ B.gmv_growth_yoy ≠ none)
  ∨ (A.take_rate = none ∧ B.take_rate ≠ none)
  ∨ (A.take_rate_trend = none ∧ B.take_rate_trend ≠ none)
  ∨ (A.tpv_growth_yoy = none ∧ B.tpv_growth_yoy ≠ none)
  ∨ (A.gross_profit_growth_yoy = none ∧ B.gross_profit_growth_yoy ≠ none)
  ∨ (A.arr_millions = none ∧ B.arr_millions ≠ none)
  ∨ (A.customers_100k_plus = none ∧ B.customers_100k_plus ≠ none)
  ∨ (A.customer_growth_yoy = none ∧ B.customer_growth_yoy ≠ none)
  ∨ (A.data_updated = none ∧ B.data_updated ≠ none)
  ∨ (A.big_tech_threat = "unknown" ∧ B.big_tech_threat ≠ "unknown")
  ∨ (A.category_stage = "unknown" ∧ B.category_stage ≠ "unknown")
  ∨ (A.switching_cost = "unknown" ∧ B.switching_cost ≠ "unknown")

-- ============================================================
-- THEOREMS
-- ============================================================

-- Characterization lemmas: the verdict (and signal-count) fields of each
-- scorer as functions of the fractional totals and buckets.

/-- The Tier 1 scorer's verdict is `tier1Decision` on the fractional totals. -/
lemma tier1_verdict_eq (d : CompanyData) :
    (compute_verdict_tier1 d).verdict
      = tier1Decision (tier1ExitTotal d) (tier1EntryTotal d) (tier1Elite d) := rfl

/-- The Tier 2 scorer's verdict as a function of the retention signal, the
fractional exit total and the growth checks. -/
lemma tier2_verdict_eq (d : CompanyData) :
    (compute_verdict_tier2 d).verdict
      = (if interpret_retention_signal d = "weak" then "SELL"
        else if EXIT_SELL ≤ tier2ExitTotal d then "SELL"
        else if interpret_retention_signal d = "strong"
            ∧ growthAtLeast (normalize_growth d.revenue_growth_yoy) GROWTH_ENTRY_THRESHOLD = true
          then "BUY"
        else "WATCH") := by
  simp only [compute_verdict_tier2]
  repeat' split
  all_goals simp_all

/-- The Tier 3 scorer's verdict is SELL on negative implied expansion and
WATCH otherwise. -/
lemma tier3_verdict_eq (d : CompanyData) :
    (compute_verdict_tier3 d).verdict
      = (if tier3Expansion d = "negative" then "SELL" else "WATCH") := by
  simp only [compute_verdict_tier3]
  repeat' split
  all_goals simp_all

/-- The Tier 4 consumer scorer's verdict as a function of its checks. -/
lemma tier4_consumer_verdict_eq (d : CompanyData) (growth : Option ℚ) :
    (compute_verdict_tier4_consumer d growth).verdict
      = (if optLt (normalize_growth d.arpu_growth_yoy) 0 = true then "SELL"
        else if optGt (normalize_growth d.arpu_growth_yoy) CONSUMER_ARPU_GROWTH_BUY = true
            ∧ optGt (normalize_growth d.active_user_growth_yoy) CONSUMER_USER_GROWTH_BUY = true
          then "BUY"
        else "WATCH") := by
  simp only [compute_verdict_tier4_consumer]
  repeat' split
  all_goals simp_all

/-- The Tier 4 marketplace scorer's verdict as a function of its checks. -/
lemma tier4_marketplace_verdict_eq (d : CompanyData) (growth : Option ℚ) :
    (compute_verdict_tier4_marketplace d growth).verdict
      = (if d.take_rate_trend = some "decreasing" then "WATCH"
        else if optGt (normalize_growth d.gmv_growth_yoy) MARKETPLACE_GMV_GROWTH_BUY = true
            ∧ d.take_rate_trend ≠ some "decreasing"
          then "BUY"
        else "WATCH") := by
  simp only [compute_verdict_tier4_marketplace]
  repeat' split
  all_goals simp_all

/-- The Tier 4 transaction scorer's verdict as a function of its checks. -/
lemma tier4_transaction_verdict_eq (d : CompanyData) (growth : Option ℚ) :
    (compute_verdict_tier4_transaction d growth).verdict
      = (match normalize_growth d.gross_profit_growth_yoy, normalize_growth d.tpv_growth_yoy with
        | some gp, some tpv =>
          if gp < tpv - TRANSACTION_MARGIN_COMPRESSION_DELTA then "SELL" else "WATCH"
        | _, _ => "WATCH") := by
  simp only [compute_verdict_tier4_transaction]
  repeat' split
  all_goals simp_all

/-- The Tier 4 no-retention scorer's verdict: SELL on two exit signals,
WATCH otherwise. -/
lemma tier4_insufficient_verdict_eq (d : CompanyData) (growth : Option ℚ) :
    (compute_verdict_tier4_insufficient d growth).verdict
      = (if EXIT_SELL ≤ tier4ExitTotal d then "SELL" else "WATCH") := by
  simp only [compute_verdict_tier4_insufficient]
  repeat' split
  all_goals simp_all

/-- The orchestrator passes the routed scorer's verdict through unchanged. -/
lemma compute_verdict_verdict_eq (d : CompanyData) (now : Int) :
    (compute_verdict d now).verdict
      = (if determine_data_tier d = 1 then compute_verdict_tier1 d
        else if determine_data_tier d = 2 then compute_verdict_tier2 d
        else if determine_data_tier d = 3 then compute_verdict_tier3 d
        else compute_verdict_tier4 d).verdict := rfl

/-- The orchestrator passes the routed scorer's data tier through unchanged. -/
lemma compute_verdict_data_tier_eq (d : CompanyData) (now : Int) :
    (compute_verdict d now).data_tier
      = (if determine_data_tier d = 1 then compute_verdict_tier1 d
        else if determine_data_tier d = 2 then compute_verdict_tier2 d
        else if determine_data_tier d = 3 then compute_verdict_tier3 d
        else compute_verdict_tier4 d).data_tier := rfl

/-- The orchestrator passes the routed scorer's missing-signal list through
unchanged. -/
lemma compute_verdict_missing_eq (d : CompanyData) (now : Int) :
    (compute_verdict d now).missing_signals
      = (if determine_data_tier d = 1 then compute_verdict_tier1 d
        else if determine_data_tier d = 2 then compute_verdict_tier2 d
        else if determine_data_tier d = 3 then compute_verdict_tier3 d
        else compute_verdict_tier4 d).missing_signals := rfl

/-- The orchestrator's confidence label is the level of the recomputed score. -/
lemma compute_verdict_confidence_eq (d : CompanyData) (now : Int) :
    (compute_verdict d now).confidence
      = score_to_confidence_level (calculate_confidence_score d) := rfl

/-- Membership in a list is preserved under a two-way branch. -/
lemma ite_mem {c : Prop} [Decidable c] {a b : String} {l : List String}
    (ha : a ∈ l) (hb : b ∈ l) : (if c then a else b) ∈ l := by
  split
  · exact ha
  · exact hb

/-- Every Tier 1 verdict lies in the five-valued verdict vocabulary. -/
lemma tier1_verdict_mem (d : CompanyData) :
    (compute_verdict_tier1 d).verdict
      ∈ (["STRONG_BUY", "BUY", "WATCH", "SELL", "AVOID"] : List String) := by
  rw [tier1_verdict_eq]
  unfold tier1Decision
  exact ite_mem (by simp) (ite_mem (by simp) (ite_mem (by simp) (ite_mem (by simp)
    (ite_mem (by simp) (ite_mem (by simp) (by simp))))))

/-- Every Tier 2 verdict lies in the five-valued verdict vocabulary. -/
lemma tier2_verdict_mem (d : CompanyData) :
    (compute_verdict_tier2 d).verdict
      ∈ (["STRONG_BUY", "BUY", "WATCH", "SELL", "AVOID"] : List String) := by
  rw [tier2_verdict_eq]
  exact ite_mem (by simp) (ite_mem (by simp) (ite_mem (by simp) (by simp)))

/-- Every Tier 3 verdict lies in the five-valued verdict vocabulary. -/
lemma tier3_verdict_mem (d : CompanyData) :
    (compute_verdict_tier3 d).verdict
      ∈ (["STRONG_BUY", "BUY", "WATCH", "SELL", "AVOID"] : List String) := by
  rw [tier3_verdict_eq]
  exact ite_mem (by simp) (by simp)

/-- Every Tier 4 verdict lies in the five-valued verdict vocabulary. -/
lemma tier4_verdict_mem (d : CompanyData) :
    (compute_verdict_tier4 d).verdict
      ∈ (["STRONG_BUY", "BUY", "WATCH", "SELL", "AVOID"] : List String) := by
  simp only [compute_verdict_tier4]
  repeat' split
  · rw [tier4_consumer_verdict_eq]
    exact ite_mem (by simp) (ite_mem (by simp) (by simp))
  · rw [tier4_marketplace_verdict_eq]
    exact ite_mem (by simp) (ite_mem (by simp) (by simp))
  · rw [tier4_transaction_verdict_eq]
    split
    · exact ite_mem (by simp) (by simp)
    · simp
  · rw [tier4_insufficient_verdict_eq]
    exact ite_mem (by simp) (by simp)

/-- Every confidence label lies in the four-valued confidence vocabulary. -/
lemma confidence_level_mem (s : ℚ) :
    score_to_confidence_level s
      ∈ (["HIGH", "MEDIUM", "LOW", "INSUFFICIENT"] : List String) := by
  unfold score_to_confidence_level
  exact ite_mem (by simp) (ite_mem (by simp) (ite_mem (by simp) (by simp)))

/-- The Tier 1 scorer reports data tier 1. -/
lemma tier1_data_tier (d : CompanyData) : (compute_verdict_tier1 d).data_tier = 1 := rfl

/-- The Tier 2 scorer reports data tier 2. -/
lemma tier2_data_tier (d : CompanyData) : (compute_verdict_tier2 d).data_tier = 2 := by
  simp only [compute_verdict_tier2]
  repeat' split
  all_goals rfl

/-- The Tier 3 scorer reports data tier 3. -/
lemma tier3_data_tier (d : CompanyData) : (compute_verdict_tier3 d).data_tier = 3 := by
  simp only [compute_verdict_tier3]
  repeat' split
  all_goals rfl

/-- The Tier 4 scorer reports data tier 4 in every business-model branch. -/
lemma tier4_data_tier (d : CompanyData) : (compute_verdict_tier4 d).data_tier = 4 := by
  simp only [compute_verdict_tier4, compute_verdict_tier4_consumer,
    compute_verdict_tier4_marketplace, compute_verdict_tier4_transaction,
    compute_verdict_tier4_insufficient]
  repeat' split
  all_goals rfl

/-- The marketplace scorer's missing-signal list in every branch. -/
lemma tier4_marketplace_missing_eq (d : CompanyData) (growth : Option ℚ) :
    (compute_verdict_tier4_marketplace d growth).missing_signals
      = (if normalize_growth d.gmv_growth_yoy = none then ["GMV growth"] else [])
        ++ (if d.take_rate_trend = none then ["Take rate trend"] else []) := by
  simp only [compute_verdict_tier4_marketplace]
  repeat' split
  all_goals rfl

/-- C4 — Normalization: `normalize_growth` maps a present value `v` to
`v * 100` exactly when `-1 < v < 1` and `v ≠ 0` and leaves it unchanged
otherwise, maps `none` to `none`; `normalize_retention` follows the same
pattern with the `v < 2.0` cutoff; and the concrete round-trips
`normalize_growth 0.25 = 25`, `normalize_growth 25 = 25` and
`normalize_retention 0.97 = 97` hold. -/
theorem C4_normalization :
    (∀ v : ℚ, normalize_growth (some v) = some (if -1 < v ∧ v < 1 ∧ v ≠ 0 then v * 100 else v))
    ∧ normalize_growth none = none
    ∧ (∀ v : ℚ, normalize_retention (some v) = some (if v < 2 then v * 100 else v))
    ∧ normalize_retention none = none
    ∧ normalize_growth (some (1/4)) = some 25
    ∧ normalize_growth (some 25) = some 25
    ∧ normalize_retention (some (97/100)) = some 97 :=
  ⟨fun _ => rfl, rfl, fun _ => rfl, rfl,
    by norm_num [normalize_growth, normGrowthVal],
    by norm_num [normalize_growth, normGrowthVal],
    by norm_num [normalize_retention, normRetVal]⟩

/-- C5 counterexample — the spec scenario exactly as stated (NDR 87, growth
-0.01, big-tech very_high, category commoditizing, defaults untouched) leaves
`ndr_tier` at its default 4, routes to the Tier 4 no-retention branch, and
produces WATCH, not SELL. -/
theorem C5_counterexample :
    (compute_verdict scenarioCommoditizing 0).verdict = "WATCH"
    ∧ (compute_verdict scenarioCommoditizing 0).verdict ≠ "SELL"
    ∧ determine_data_tier scenarioCommoditizing = 4 := by
  have hroute : (compute_verdict scenarioCommoditizing 0).verdict
      = (compute_verdict_tier4_insufficient scenarioCommoditizing
          (normalize_growth scenarioCommoditizing.revenue_growth_yoy)).verdict := rfl
  have hx : tier4ExitTotal scenarioCommoditizing = 3/2 := by
    simp only [tier4ExitTotal,
      show scenarioCommoditizing.revenue_decel_3q = false from rfl,
      show scenarioCommoditizing.big_tech_announced = false from rfl,
      show scenarioCommoditizing.category_stage = "commoditizing" from rfl,
      show scenarioCommoditizing.big_tech_threat = "very_high" from rfl]
    norm_num
  have h : (compute_verdict scenarioCommoditizing 0).verdict = "WATCH" := by
    rw [hroute, tier4_insufficient_verdict_eq, hx]
    norm_num [EXIT_SELL]
  exact ⟨h, by rw [h]; decide, rfl⟩

/-- C5 amended — with the NDR additionally marked as a direct tier-1
disclosure (`ndr_tier = 1`, as in the repository test for this scenario), the
company routes to Tier 1 and the verdict is SELL, with at least two exit
signals triggered (NDR 87 below 110, category commoditizing, plus partial
credit for the very-high big-tech threat). -/
theorem C5_amended_scenario : ∀ now : Int,
    (compute_verdict scenarioCommoditizingTier1 now).verdict = "SELL"
    ∧ (2:ℚ) ≤ tier1ExitTotal scenarioCommoditizingTier1
    ∧ (compute_verdict scenarioCommoditizingTier1 now).exit_signals_triggered = 2 := by
  intro now
  have hx : tier1ExitTotal scenarioCommoditizingTier1 = 5/2 := by
    simp only [tier1ExitTotal,
      show scenarioCommoditizingTier1.ndr = some 87 from rfl,
      show scenarioCommoditizingTier1.revenue_decel_3q = false from rfl,
      show scenarioCommoditizingTier1.big_tech_announced = false from rfl,
      show scenarioCommoditizingTier1.category_stage = "commoditizing" from rfl,
      show scenarioCommoditizingTier1.big_tech_threat = "very_high" from rfl]
    norm_num [NDR_ENTRY_THRESHOLD]
  refine ⟨?_, by rw [hx]; norm_num, ?_⟩
  · show tier1Decision (tier1ExitTotal scenarioCommoditizingTier1)
      (tier1EntryTotal scenarioCommoditizingTier1) (tier1Elite scenarioCommoditizingTier1) = "SELL"
    unfold tier1Decision
    rw [if_pos (show EXIT_SELL ≤ tier1ExitTotal scenarioCommoditizingTier1 by
      rw [hx]; norm_num [EXIT_SELL])]
  · show (truncInt (tier1ExitTotal scenarioCommoditizingTier1) : ℚ) = 2
    rw [hx]
    norm_num [truncInt]

/-- C2 — Monotonic exit dominance: in the Tier 1 and Tier 2 scorers, a
fractional exit-signal total of at least 2 forces the verdict SELL, whatever
the entry-signal total is. -/
theorem C2_exit_dominance : ∀ d : CompanyData,
    ((2:ℚ) ≤ tier1ExitTotal d → (compute_verdict_tier1 d).verdict = "SELL")
    ∧ ((2:ℚ) ≤ tier2ExitTotal d → (compute_verdict_tier2 d).verdict = "SELL") := by
  intro d
  constructor
  · intro h
    show tier1Decision (tier1ExitTotal d) (tier1EntryTotal d) (tier1Elite d) = "SELL"
    unfold tier1Decision
    rw [if_pos (show EXIT_SELL ≤ tier1ExitTotal d from h)]
  · intro h
    by_cases hw : interpret_retention_signal d = "weak"
    · simp only [compute_verdict_tier2]
      rw [if_pos hw]
    · simp only [compute_verdict_tier2]
      rw [if_neg hw, if_pos (show EXIT_SELL ≤ tier2ExitTotal d from h)]

/-- C2 witness — a company with deceleration and a big-tech announcement has
exit total 2 in both scorers, and both scorers return SELL on it. -/
theorem C2_exit_dominance_witness :
    (compute_verdict_tier1 exitHeavyCompany).verdict = "SELL"
    ∧ (compute_verdict_tier2 exitHeavyCompanyTier2).verdict = "SELL" :=
  ⟨(C2_exit_dominance exitHeavyCompany).1 (by
      simp only [tier1ExitTotal,
        show exitHeavyCompany.ndr = some 125 from rfl,
        show exitHeavyCompany.revenue_decel_3q = true from rfl,
        show exitHeavyCompany.big_tech_announced = true from rfl,
        show exitHeavyCompany.category_stage = "emerging" from rfl,
        show exitHeavyCompany.big_tech_threat = "low" from rfl]
      norm_num +decide [NDR_ENTRY_THRESHOLD]),
   (C2_exit_dominance exitHeavyCompanyTier2).2 (by
      simp only [tier2ExitTotal,
        show exitHeavyCompanyTier2.revenue_decel_3q = true from rfl,
        show exitHeavyCompanyTier2.big_tech_announced = true from rfl,
        show exitHeavyCompanyTier2.category_stage = "unknown" from rfl,
        show exitHeavyCompanyTier2.big_tech_threat = "unknown" from rfl]
      norm_num +decide)⟩

/-- C1 — Tier ceiling invariants: the Tier 3 scorer never returns BUY or
STRONG_BUY; the Tier 4 default (no-retention) branch returns only WATCH or
SELL, never BUY, STRONG_BUY or AVOID; the Tier 2 scorer never returns AVOID
or STRONG_BUY. -/
theorem C1_tier_ceilings :
    (∀ d : CompanyData, (compute_verdict_tier3 d).verdict ≠ "BUY"
      ∧ (compute_verdict_tier3 d).verdict ≠ "STRONG_BUY")
    ∧ (∀ (d : CompanyData) (growth : Option ℚ),
        ((compute_verdict_tier4_insufficient d growth).verdict = "WATCH"
          ∨ (compute_verdict_tier4_insufficient d growth).verdict = "SELL")
        ∧ (compute_verdict_tier4_insufficient d growth).verdict ≠ "BUY"
        ∧ (compute_verdict_tier4_insufficient d growth).verdict ≠ "STRONG_BUY"
        ∧ (compute_verdict_tier4_insufficient d growth).verdict ≠ "AVOID")
    ∧ (∀ d : CompanyData, (compute_verdict_tier2 d).verdict ≠ "AVOID"
      ∧ (compute_verdict_tier2 d).verdict ≠ "STRONG_BUY") := by
  refine ⟨fun d => ?_, fun d growth => ?_, fun d => ?_⟩
  · rw [tier3_verdict_eq]
    split <;> simp
  · rw [tier4_insufficient_verdict_eq]
    split <;> simp
  · rw [tier2_verdict_eq]
    repeat' split
    all_goals simp

/-- C3 — Totality: on every CompanyData (any combination of present and
absent optional fields, any business model, any assessment strings) and at
any wall-clock time, `compute_verdict` produces a verdict among the five
verdict labels, a confidence among the four confidence labels, and a data
tier in 1..4; the embedding is a total function, so no input can raise. -/
theorem C3_totality : ∀ (d : CompanyData) (now : Int),
    (compute_verdict d now).verdict
      ∈ (["STRONG_BUY", "BUY", "WATCH", "SELL", "AVOID"] : List String)
    ∧ (compute_verdict d now).confidence
      ∈ (["HIGH", "MEDIUM", "LOW", "INSUFFICIENT"] : List String)
    ∧ (compute_verdict d now).data_tier ∈ ([1, 2, 3, 4] : List Int) := by
  intro d now
  refine ⟨?_, ?_, ?_⟩
  · rw [compute_verdict_verdict_eq]
    repeat' split
    · exact tier1_verdict_mem d
    · exact tier2_verdict_mem d
    · exact tier3_verdict_mem d
    · exact tier4_verdict_mem d
  · rw [compute_verdict_confidence_eq]
    exact confidence_level_mem _
  · rw [compute_verdict_data_tier_eq]
    repeat' split
    · rw [tier1_data_tier]; simp
    · rw [tier2_data_tier]; simp
    · rw [tier3_data_tier]; simp
    · rw [tier4_data_tier]; simp

/-- C8 — evaluation of the code at the failing input: `tier2UntruncatedExit`
routes to the Tier 2 exit-SELL return with fractional exit total 5/2, and the
outcome field `exit_signals_triggered` holds that untruncated 5/2 — not an
integer, since it differs from its own truncation. This is the one return
branch (`plg_core.py` line 726) that omits the `int()` every sibling branch
applies, against the `int` annotation of the field. -/
theorem C8_untruncated_exit_field :
    interpret_retention_signal tier2UntruncatedExit ≠ "weak"
    ∧ tier2ExitTotal tier2UntruncatedExit = 5/2
    ∧ (compute_verdict_tier2 tier2UntruncatedExit).verdict = "SELL"
    ∧ (compute_verdict_tier2 tier2UntruncatedExit).exit_signals_triggered = 5/2
    ∧ ((truncInt ((compute_verdict_tier2 tier2UntruncatedExit).exit_signals_triggered) : ℤ) : ℚ)
      ≠ (compute_verdict_tier2 tier2UntruncatedExit).exit_signals_triggered := by
  have hw : interpret_retention_signal tier2UntruncatedExit ≠ "weak" := by decide
  have hx : tier2ExitTotal tier2UntruncatedExit = 5/2 := by
    simp only [tier2ExitTotal,
      show tier2UntruncatedExit.revenue_decel_3q = true from rfl,
      show tier2UntruncatedExit.big_tech_announced = true from rfl,
      show tier2UntruncatedExit.category_stage = "unknown" from rfl,
      show tier2UntruncatedExit.big_tech_threat = "high" from rfl]
    norm_num +decide
  have hge : EXIT_SELL ≤ tier2ExitTotal tier2UntruncatedExit := by
    rw [hx]
    norm_num [EXIT_SELL]
  have hfield : (compute_verdict_tier2 tier2UntruncatedExit).exit_signals_triggered
      = tier2ExitTotal tier2UntruncatedExit := by
    simp only [compute_verdict_tier2]
    rw [if_neg hw, if_pos hge]
  refine ⟨hw, hx, ?_, ?_, ?_⟩
  · rw [tier2_verdict_eq, if_neg hw, if_pos hge]
  · rw [hfield, hx]
  · rw [hfield, hx]
    norm_num [truncInt]

/-- C10 counterexample — a marketplace company with GMV growth 50 and no
take-rate trend, but a direct NDR disclosure, routes to Tier 1 instead of the
marketplace scorer and gets WATCH, so the claim as universally stated fails. -/
theorem C10_counterexample :
    marketWithNdr.business_model = "marketplace"
    ∧ marketWithNdr.take_rate_trend = none
    ∧ normalize_growth marketWithNdr.gmv_growth_yoy = some 50
    ∧ MARKETPLACE_GMV_GROWTH_BUY < 50
    ∧ (compute_verdict marketWithNdr 0).verdict ≠ "BUY" := by
  have hroute : (compute_verdict marketWithNdr 0).verdict
      = (compute_verdict_tier1 marketWithNdr).verdict := rfl
  have hx : tier1ExitTotal marketWithNdr = 1 := by
    simp only [tier1ExitTotal,
      show marketWithNdr.ndr = some 90 from rfl,
      show marketWithNdr.revenue_decel_3q = false from rfl,
      show marketWithNdr.big_tech_announced = false from rfl,
      show marketWithNdr.category_stage = "unknown" from rfl,
      show marketWithNdr.big_tech_threat = "unknown" from rfl]
    norm_num +decide [NDR_ENTRY_THRESHOLD]
  have hv : (compute_verdict marketWithNdr 0).verdict = "WATCH" := by
    rw [hroute, tier1_verdict_eq]
    unfold tier1Decision
    rw [hx, if_neg (by norm_num [EXIT_SELL]), if_pos (by norm_num [EXIT_WATCH])]
  rw [hv]
  refine ⟨rfl, rfl, ?_, by norm_num [MARKETPLACE_GMV_GROWTH_BUY], by decide⟩
  rw [show marketWithNdr.gmv_growth_yoy = some (50:ℚ) from rfl]
  norm_num [normalize_growth, normGrowthVal]

/-- C10 amended — for every CompanyData that the tier router assigns to
Tier 4 (no higher-priority retention or derived signals), with business model
marketplace, take-rate trend absent and normalized GMV growth strictly above
25, `compute_verdict` returns BUY, and the missing take-rate trend is only
recorded in the missing-signals list. -/
theorem C10_marketplace_amended : ∀ (d : CompanyData) (now : Int) (g : ℚ),
    determine_data_tier d = 4 →
    d.business_model = "marketplace" →
    d.take_rate_trend = none →
    normalize_growth d.gmv_growth_yoy = some g →
    MARKETPLACE_GMV_GROWTH_BUY < g →
    (compute_verdict d now).verdict = "BUY"
    ∧ "Take rate trend" ∈ (compute_verdict d now).missing_signals := by
  intro d now g htier hbm htrend hgmv hg
  have hv4 : (if determine_data_tier d = 1 then compute_verdict_tier1 d
      else if determine_data_tier d = 2 then compute_verdict_tier2 d
      else if determine_data_tier d = 3 then compute_verdict_tier3 d
      else compute_verdict_tier4 d) = compute_verdict_tier4 d := by
    rw [htier]
    norm_num
  have hmkt : compute_verdict_tier4 d
      = compute_verdict_tier4_marketplace d (normalize_growth d.revenue_growth_yoy) := by
    simp only [compute_verdict_tier4, hbm]
    simp
  constructor
  · rw [compute_verdict_verdict_eq, hv4, hmkt, tier4_marketplace_verdict_eq]
    rw [if_neg (by rw [htrend]; simp)]
    rw [if_pos ?_]
    constructor
    · simp only [optGt, hgmv]
      simpa using hg
    · rw [htrend]; simp
  · rw [compute_verdict_missing_eq, hv4, hmkt, tier4_marketplace_missing_eq]
    rw [if_neg (by rw [hgmv]; simp), if_pos htrend]
    simp

/-- C10 witness — a plain marketplace company with GMV growth 50 and no other
signals satisfies all the amended hypotheses and gets BUY with the take-rate
trend recorded as missing. -/
theorem C10_witness :
    (compute_verdict marketNoTrend 0).verdict = "BUY"
    ∧ "Take rate trend" ∈ (compute_verdict marketNoTrend 0).missing_signals :=
  C10_marketplace_amended marketNoTrend 0 50 rfl rfl rfl
    (by rw [show marketNoTrend.gmv_growth_yoy = some (50:ℚ) from rfl]
        norm_num [normalize_growth, normGrowthVal])
    (by norm_num [MARKETPLACE_GMV_GROWTH_BUY])

/-- C6 counterexample — with no NDR but a DBNE present, the retention block of
`calculate_confidence_score` contributes 0.15, not 0: dropping the DBNE changes
the score (0.25 versus 0.10), so the retention component is not 0 whenever NDR
is absent. -/
theorem C6_counterexample :
    confVariantOnly.ndr = none
    ∧ retentionCredit confVariantOnly = 0.15
    ∧ retentionCredit confVariantOnly ≠ 0
    ∧ calculate_confidence_score confVariantOnly
      ≠ calculate_confidence_score { confVariantOnly with dbne := none } := by
  have hr : retentionCredit confVariantOnly = 0.15 := by
    simp only [retentionCredit, show confVariantOnly.ndr = none from rfl,
      show confVariantOnly.dbne = some 110 from rfl]
    norm_num +decide [SIGNAL_WEIGHTS]
  have h1 : calculate_confidence_score confVariantOnly = 1/4 := by
    simp [calculate_confidence_score, retentionCredit, growthCredit, trendCredit, arrCredit,
      bigTechCredit, categoryCredit, custCountCredit, custGrowthCredit, SIGNAL_WEIGHTS,
      confVariantOnly, baseCompany, round4, round_eq]
    norm_num
  have h2 : calculate_confidence_score { confVariantOnly with dbne := none } = 1/10 := by
    simp [calculate_confidence_score, retentionCredit, growthCredit, trendCredit, arrCredit,
      bigTechCredit, categoryCredit, custCountCredit, custGrowthCredit, SIGNAL_WEIGHTS,
      confVariantOnly, baseCompany, round4, round_eq]
    norm_num
  refine ⟨rfl, hr, by rw [hr]; norm_num, by rw [h1, h2]; norm_num⟩

/-- C6 amended — the confidence score is the 4-decimal rounding of the sum of
its eight credit blocks, and the retention block is 0.25 for a present NDR of
tier 1, 0.15 for tier 2, 0.08 for tier 3 and 0 for any other tier (tier 4
included); when NDR is absent the block is not 0 in general: it falls back to
0.15 if any of DBNE, gross retention or large-customer NDR is present, else to
0.08 if implied expansion is present, and only otherwise to 0. -/
theorem C6_retention_component_amended : ∀ d : CompanyData,
    calculate_confidence_score d
      = round4 (retentionCredit d + growthCredit d + trendCredit d + arrCredit d
        + bigTechCredit d + categoryCredit d + custCountCredit d + custGrowthCredit d)
    ∧ retentionCredit d
      = (match d.ndr with
        | some _ =>
          if d.ndr_tier = 1 then 0.25
          else if d.ndr_tier = 2 then 0.15
          else if d.ndr_tier = 3 then 0.08
          else 0
        | none =>
          if d.dbne.isSome = true ∨ d.gross_retention.isSome = true
              ∨ d.large_customer_ndr.isSome = true then 0.15
          else if d.implied_expansion.isSome = true then 0.08
          else 0) := by
  intro d
  refine ⟨rfl, ?_⟩
  unfold retentionCredit
  cases d.ndr <;> norm_num +decide [SIGNAL_WEIGHTS]

-- Monotonicity machinery for the confidence scorer.

/-- Every signal weight is nonnegative. -/
lemma SIGNAL_WEIGHTS_nonneg (k : String) : 0 ≤ SIGNAL_WEIGHTS k := by
  unfold SIGNAL_WEIGHTS
  repeat' split
  all_goals norm_num

/-- Rounding to four decimals is monotone. -/
lemma round4_mono {a b : ℚ} (h : a ≤ b) : round4 a ≤ round4 b := by
  unfold round4
  have h2 : round (a * 10000) ≤ round (b * 10000) := by
    rw [round_eq, round_eq]
    exact Int.floor_le_floor (by linarith)
  have h3 : ((round (a * 10000) : ℤ) : ℚ) ≤ ((round (b * 10000) : ℤ) : ℚ) := by
    exact_mod_cast h2
  gcongr

/-- A single weight credit is monotone along an implication of its condition. -/
lemma ite_weight_mono {p q : Prop} [Decidable p] [Decidable q] {w : ℚ}
    (hw : 0 ≤ w) (hpq : p → q) : (if p then w else 0) ≤ (if q then w else 0) := by
  by_cases hp : p
  · rw [if_pos hp, if_pos (hpq hp)]
  · rw [if_neg hp]
    split
    · exact hw
    · exact le_refl 0

/-- The revenue-trend credit is the constant trend weight: the source tests
`is True or is False`, which a boolean field always satisfies. -/
lemma trendCredit_eq (d : CompanyData) :
    trendCredit d = SIGNAL_WEIGHTS "revenue_growth_trend" := by
  unfold trendCredit
  cases h : d.revenue_decel_3q <;> simp [h]

/-- The retention credit is monotone when the NDR field itself is unchanged
and every variant or derived retention field of A persists in B. -/
lemma retentionCredit_mono (A B : CompanyData)
    (hndr : A.ndr = B.ndr) (htier : A.ndr_tier = B.ndr_tier)
    (hdbne : A.dbne.isSome = true → B.dbne = A.dbne)
    (hgr : A.gross_retention.isSome = true → B.gross_retention = A.gross_retention)
    (hlc : A.large_customer_ndr.isSome = true → B.large_customer_ndr = A.large_customer_ndr)
    (himp : A.implied_expansion.isSome = true → B.implied_expansion = A.implied_expansion) :
    retentionCredit A ≤ retentionCredit B := by
  unfold retentionCredit
  rw [← hndr, ← htier]
  cases hA : A.ndr with
  | some v => exact le_refl _
  | none =>
    by_cases hv : A.dbne.isSome = true ∨ A.gross_retention.isSome = true
        ∨ A.large_customer_ndr.isSome = true
    · have hv2 : B.dbne.isSome = true ∨ B.gross_retention.isSome = true
          ∨ B.large_customer_ndr.isSome = true := by
        rcases hv with h | h | h
        · exact Or.inl (by rw [hdbne h]; exact h)
        · exact Or.inr (Or.inl (by rw [hgr h]; exact h))
        · exact Or.inr (Or.inr (by rw [hlc h]; exact h))
      rw [if_pos hv, if_pos hv2]
    · rw [if_neg hv]
      by_cases hi : A.implied_expansion.isSome = true
      · have hi2 : B.implied_expansion.isSome = true := by rw [himp hi]; exact hi
        rw [if_pos hi]
        by_cases hbv : B.dbne.isSome = true ∨ B.gross_retention.isSome = true
            ∨ B.large_customer_ndr.isSome = true
        · rw [if_pos hbv]
          norm_num +decide [SIGNAL_WEIGHTS]
        · rw [if_neg hbv, if_pos hi2]
      · rw [if_neg hi]
        by_cases hbv : B.dbne.isSome = true ∨ B.gross_retention.isSome = true
            ∨ B.large_customer_ndr.isSome = true
        · rw [if_pos hbv]
          exact SIGNAL_WEIGHTS_nonneg _
        · rw [if_neg hbv]
          by_cases hbi : B.implied_expansion.isSome = true
          · rw [if_pos hbi]
            exact SIGNAL_WEIGHTS_nonneg _
          · rw [if_neg hbi]

/-- C7 counterexample — `confB` populates a strict superset of `confA`
(it adds an NDR value, with `ndr_tier` untouched at its default 4), yet its
confidence score is strictly lower: the present NDR with tier 4 earns 0 and
suppresses the 0.15 variant fallback that `confA` received for its DBNE. -/
theorem C7_counterexample :
    populates confA confB ∧ addsSomething confA confB
    ∧ calculate_confidence_score confB < calculate_confidence_score confA := by
  have h1 : calculate_confidence_score confA = 1/4 := by
    simp [calculate_confidence_score, retentionCredit, growthCredit, trendCredit, arrCredit,
      bigTechCredit, categoryCredit, custCountCredit, custGrowthCredit, SIGNAL_WEIGHTS,
      confA, baseCompany, round4, round_eq]
    norm_num
  have h2 : calculate_confidence_score confB = 1/10 := by
    simp [calculate_confidence_score, retentionCredit, growthCredit, trendCredit, arrCredit,
      bigTechCredit, categoryCredit, custCountCredit, custGrowthCredit, SIGNAL_WEIGHTS,
      confB, confA, baseCompany, round4, round_eq]
    norm_num
  refine ⟨by simp [populates, confA, confB, baseCompany],
    by simp [addsSomething, confA, confB, baseCompany],
    by rw [h1, h2]; norm_num⟩

/-- C7 amended — confidence monotonicity holds under the superset relation
provided the NDR field itself is not among the newly populated fields (A and
B agree on `ndr`): then every credit block of the confidence score is
monotone, and so is the rounded sum. -/
theorem C7_confidence_mono_amended : ∀ A B : CompanyData,
    populates A B → addsSomething A B → A.ndr = B.ndr →
    calculate_confidence_score A ≤ calculate_confidence_score B := by
  intro A B hpop _ hndr
  obtain ⟨-, -, -, -, htier, -, -, -, -, -, -, -, hrev, -, -, -, -, hgr, hdbne, hlc, himp,
    -, -, -, -, -, -, -, -, harr, hcust, hcg, -, hbt, hcat, -⟩ := hpop
  unfold calculate_confidence_score
  apply round4_mono
  have h1 : retentionCredit A ≤ retentionCredit B :=
    retentionCredit_mono A B hndr htier hdbne hgr hlc himp
  have h2 : growthCredit A ≤ growthCredit B := by
    unfold growthCredit
    exact ite_weight_mono (SIGNAL_WEIGHTS_nonneg _) (fun h => by rw [hrev h]; exact h)
  have h3 : trendCredit A = trendCredit B := by rw [trendCredit_eq, trendCredit_eq]
  have h4 : arrCredit A ≤ arrCredit B := by
    unfold arrCredit
    exact ite_weight_mono (SIGNAL_WEIGHTS_nonneg _) (fun h => by rw [harr h]; exact h)
  have h5 : bigTechCredit A ≤ bigTechCredit B := by
    unfold bigTechCredit
    exact ite_weight_mono (SIGNAL_WEIGHTS_nonneg _) (fun h => by rw [hbt h]; exact h)
  have h6 : categoryCredit A ≤ categoryCredit B := by
    unfold categoryCredit
    exact ite_weight_mono (SIGNAL_WEIGHTS_nonneg _) (fun h => by rw [hcat h]; exact h)
  have h7 : custCountCredit A ≤ custCountCredit B := by
    unfold custCountCredit
    exact ite_weight_mono (SIGNAL_WEIGHTS_nonneg _) (fun h => by rw [hcust h]; exact h)
  have h8 : custGrowthCredit A ≤ custGrowthCredit B := by
    unfold custGrowthCredit
    exact ite_weight_mono (SIGNAL_WEIGHTS_nonneg _) (fun h => by rw [hcg h]; exact h)
  linarith

/-- C7 witness — adding a revenue-growth figure to an otherwise empty company
is a strict superset that does not touch `ndr`, and the score indeed does not
decrease. -/
theorem C7_witness :
    calculate_confidence_score confWA ≤ calculate_confidence_score confWB :=
  C7_confidence_mono_amended confWA confWB
    (by simp [populates, confWA, confWB, baseCompany])
    (by simp [addsSomething, confWA, confWB, baseCompany]) rfl

/-- C9 — Staleness classification: no recorded date (none or the empty
string) is stale with reason `no date recorded`; an unparseable date is stale
with reason `invalid date format`; otherwise, with the age in days measured
against the current time, an age of at most 100 days yields no staleness
flag, an age strictly above 100 days flags financials (plus NDR when an NDR
is present), and an age strictly above 180 days additionally flags the
competitive assessment. -/
theorem C9_staleness : ∀ (d : CompanyData) (now : Int),
    (d.data_updated = none →
      check_staleness d now = (true, ["data_updated (no date recorded)"]))
    ∧ (d.data_updated = some "" →
      check_staleness d now = (true, ["data_updated (no date recorded)"]))
    ∧ (∀ s, d.data_updated = some s → s ≠ "" → parse_date s = none →
      check_staleness d now = (true, ["data_updated (invalid date format)"]))
    ∧ (∀ s u, d.data_updated = some s → s ≠ "" → parse_date s = some u →
      ((now - u ≤ 100 → check_staleness d now = (false, []))
      ∧ (100 < now - u → now - u ≤ 180 →
          check_staleness d now = (true,
            ["financials (" ++ toString (now - u) ++ " days old)"]
            ++ (if d.ndr.isSome = true then
              ["NDR (" ++ toString (now - u) ++ " days old)"] else [])))
      ∧ (180 < now - u →
          check_staleness d now = (true,
            ["financials (" ++ toString (now - u) ++ " days old)"]
            ++ (if d.ndr.isSome = true then
              ["NDR (" ++ toString (now - u) ++ " days old)"] else [])
            ++ ["competitive assessment (" ++ toString (now - u) ++ " days old)"])))) := by
  intro d now
  refine ⟨fun h => by simp [check_staleness, h],
    fun h => by simp [check_staleness, h],
    fun s hs hne hp => by simp [check_staleness, hs, hne, hp],
    fun s u hs hne hp => ⟨fun hle => ?_, fun hgt hle => ?_, fun hgt => ?_⟩⟩
  · have h1 : ¬ (STALENESS_FINANCIAL < now - u) := by
      simp only [STALENESS_FINANCIAL]; omega
    have h2 : ¬ (STALENESS_COMPETITIVE < now - u) := by
      simp only [STALENESS_COMPETITIVE]; omega
    simp [check_staleness, hs, hne, hp, h1, h2]
  · have h1 : STALENESS_FINANCIAL < now - u := by
      simp only [STALENESS_FINANCIAL]; omega
    have h2 : ¬ (STALENESS_COMPETITIVE < now - u) := by
      simp only [STALENESS_COMPETITIVE]; omega
    simp [check_staleness, hs, hne, hp, h1, h2]
  · have h1 : STALENESS_FINANCIAL < now - u := by
      simp only [STALENESS_FINANCIAL]; omega
    have h2 : STALENESS_COMPETITIVE < now - u := by
      simp only [STALENESS_COMPETITIVE]; omega
    simp [check_staleness, hs, hne, hp, h1, h2]

/-- C9 witness — a company updated on 2024-01-01 with an NDR: 120 days later
financials and NDR are flagged; 200 days later the competitive assessment is
additionally flagged; at exactly 100 days nothing is flagged. -/
theorem C9_witness :
    check_staleness staleCompany (daysFromCivil 2024 1 1 + 120)
      = (true, ["financials (120 days old)", "NDR (120 days old)"])
    ∧ check_staleness staleCompany (daysFromCivil 2024 1 1 + 200)
      = (true, ["financials (200 days old)", "NDR (200 days old)",
          "competitive assessment (200 days old)"])
    ∧ check_staleness staleCompany (daysFromCivil 2024 1 1 + 100) = (false, []) := by
  have hparse : parse_date "2024-01-01" = some (daysFromCivil 2024 1 1) := by decide
  refine ⟨?_, ?_, ?_⟩
  · have h := ((C9_staleness staleCompany (daysFromCivil 2024 1 1 + 120)).2.2.2
      "2024-01-01" (daysFromCivil 2024 1 1) rfl (by decide) hparse).2.1
      (by omega) (by omega)
    rw [show daysFromCivil 2024 1 1 + 120 - daysFromCivil 2024 1 1 = 120 from by omega] at h
    rw [h]
    decide
  · have h := ((C9_staleness staleCompany (daysFromCivil 2024 1 1 + 200)).2.2.2
      "2024-01-01" (daysFromCivil 2024 1 1) rfl (by decide) hparse).2.2
      (by omega)
    rw [show daysFromCivil 2024 1 1 + 200 - daysFromCivil 2024 1 1 = 200 from by omega] at h
    rw [h]
    decide
  · exact ((C9_staleness staleCompany (daysFromCivil 2024 1 1 + 100)).2.2.2
      "2024-01-01" (daysFromCivil 2024 1 1) rfl (by decide) hparse).1 (by omega)

end PLG
